import Mathlib

/-!
Shallow embedding of the WebBuyer `ParkingPopup` component
(src/buyer/frontend/src/components/map/ParkingPopup.tsx) and a verification
of the specification claims about it.

Modelling conventions:
* JavaScript numbers are modelled as rationals (`ℚ`).  `Number(x)` coercions
  that can produce `NaN` are modelled as `Option ℚ`, with `none` standing for
  `NaN`.
* A field of a loosely typed record is modelled by `JField`: it is either
  missing (`undefined`/`null`), a number, a non-number value that coerces to a
  finite number (for example the string consisting of the digit seven), or a
  non-number value whose numeric coercion is `NaN`.
* `x.toFixed 2` followed by unary plus is modelled by `round2`
  (round half up at two decimal places; all the prices involved are
  non-negative, where half up and half away from zero agree).
* `new Date s` together with `getTime` is modelled by an arbitrary parameter
  `parse : String → Option ℤ` giving epoch milliseconds (`none` models an
  invalid date, whose `getTime` is `NaN`).
-/

/-- JS `(+x).toFixed 2` re-read as a number: rounding to two decimal places. -/
def round2 (q : ℚ) : ℚ := ((⌊q * 100 + 1/2⌋ : ℤ) : ℚ) / 100

/-- Value of a field of a loosely typed record, as observed by the code. -/
inductive JField where
  /-- missing, `undefined` or `null` -/
  | absent
  /-- a finite number (JS type tag number) -/
  | number (q : ℚ)
  /-- present non-number that coerces to the finite number `q` -/
  | coerces (q : ℚ)
  /-- present non-number whose numeric coercion is `NaN` -/
  | nanLike
deriving DecidableEq, Repr

/-- JS `a ?? b` on record fields (`absent` stands for `undefined`/`null`). -/
def jfOrElse (a b : JField) : JField :=
  match a with
  | .absent => b
  | x => x

/-- JS `Number x` on a field value; `none` is `NaN`. -/
def jfNum : JField → Option ℚ
  | .absent => none
  | .number q => some q
  | .coerces q => some q
  | .nanLike => none

/-- JS `Number x || 0` on a field value (`NaN` becomes `0`). -/
def jfNumOr0 (f : JField) : ℚ := (jfNum f).getD 0

/-- The `discount` / `discountPercent` field shapes recognised by
`computeDiscountedPrice`.  A string is represented by the numeric value JS
obtains from `Number` after stripping a percent sign (`none` models `NaN`). -/
inductive DiscVal where
  /-- a finite number -/
  | dnum (q : ℚ)
  /-- `NaN` (JS type tag is still number) -/
  | dnan
  /-- a string; `coe` is `Number` of the string with a percent sign stripped -/
  | dstr (coe : Option ℚ)
  /-- a non-null object with optional `percent` / `value` / `amount` fields -/
  | dobj (percent value amount : JField)
  /-- any other present value (for example a boolean): no branch matches -/
  | dother
deriving DecidableEq, Repr

/-- A raw photo reference as inspected by `makeUrl`. -/
inductive Photo where
  /-- a string -/
  | pstr (s : String)
  /-- an object with optional `url` / `path` / `filename` string fields -/
  | pobj (url path filename : Option String)
  /-- a falsy non-string value (`null`, `undefined`, `0`, `false`, ...) -/
  | falsy
  /-- a truthy value that is neither a string nor an object -/
  | truthyOther
deriving DecidableEq, Repr

/-- The `photos` field of a space: an array, or any single value. -/
inductive RawPhotos where
  | arr (l : List Photo)
  | val (p : Photo)
deriving DecidableEq, Repr

/-- The price breakdown produced by `computeDiscountedPrice`. -/
structure PriceBreakdown where
  basePrice : ℚ
  discountPercent : ℚ
  discountedPrice : ℚ
  hasDiscount : Bool
deriving DecidableEq, Repr

/-- The fields of a parking-space record that the component reads. -/
structure SpaceRec where
  _id : Option String := none
  rating : JField := .absent
  priceParking : JField := .absent
  pricePerHour : JField := .absent
  price : JField := .absent
  discount : Option DiscVal := none
  discountPercent : Option DiscVal := none
  __price : Option PriceBreakdown := none
  photos : RawPhotos := .val .falsy
deriving DecidableEq, Repr

/-- `Number (s.priceParking ?? s.pricePerHour ?? s.price ?? 0) || 0`. -/
def baseOf (s : SpaceRec) : ℚ :=
  jfNumOr0 (jfOrElse s.priceParking (jfOrElse s.pricePerHour
    (jfOrElse s.price (.number 0))))

/-- The recognised numeric discount before clamping (`none` models `NaN`),
from the branch on the type of `rawDiscount`. -/
def discountNumOf (s : SpaceRec) : Option ℚ :=
  match (s.discount).orElse (fun _ => s.discountPercent) with
  | some (.dnum q) => some q
  | some .dnan => none
  | some (.dstr coe) => coe
  | some (.dobj p v a) => jfNum (jfOrElse p (jfOrElse v (jfOrElse a (.number 0))))
  | some .dother => some 0
  | none => some 0

/-- Embedding of `computeDiscountedPrice` (ParkingPopup.tsx lines 196-215). -/
def computeDiscountedPrice (s : SpaceRec) : PriceBreakdown :=
  let base := baseOf s
  let clamped : ℚ :=
    match discountNumOf s with
    | some q => max 0 (min 100 q)
    | none => 0
  let discounted := round2 (base * (1 - clamped / 100))
  { basePrice := round2 base
    discountPercent := clamped
    discountedPrice := discounted
    hasDiscount := decide (0 < clamped) && decide (discounted < base) }

/-- Embedding of `computeDurationHours` (lines 217-224): `null` unless both
timestamps are present, non-empty, parse, and the end is strictly after the
start. -/
def computeDurationHours (parse : String → Option ℤ)
    (start end_ : Option String) : Option ℚ :=
  match start, end_ with
  | some s, some e =>
    if s = "" ∨ e = "" then none
    else
      match parse s, parse e with
      | some ts, some te =>
        if te ≤ ts then none
        else some ((((te - ts : ℤ) : ℚ) / (1000 * 60)) / 60)
      | _, _ => none
  | _, _ => none

/-- `priceMeta` (line 227): a `__price` field on the space, when present,
overrides the computation. -/
def priceMeta (s : SpaceRec) : PriceBreakdown :=
  (s.__price).getD (computeDiscountedPrice s)

/-- `perHour` (line 232). -/
def perHourOf (s : SpaceRec) : ℚ :=
  if (priceMeta s).hasDiscount then (priceMeta s).discountedPrice
  else (priceMeta s).basePrice

/-- `totalAmount` (line 233); the JS truthiness test on `durationHours` also
sends a zero duration to `null`. -/
def totalAmount (s : SpaceRec) (durationHours : Option ℚ) : Option ℚ :=
  match durationHours with
  | none => none
  | some d => if d = 0 then none else some (round2 (perHourOf s * d))

theorem round2_mono {x y : ℚ} (h : x ≤ y) : round2 x ≤ round2 y := by
  unfold round2
  have hf : (⌊x * 100 + 1/2⌋ : ℤ) ≤ ⌊y * 100 + 1/2⌋ :=
    Int.floor_le_floor (by linarith)
  have hq : ((⌊x * 100 + 1/2⌋ : ℤ) : ℚ) ≤ ((⌊y * 100 + 1/2⌋ : ℤ) : ℚ) :=
    Int.cast_le.mpr hf
  linarith

/-- A space priced at 0.004 with a 50 percent discount: the discounted price
rounds to 0 while the base also rounds to 0. -/
def sC3 : SpaceRec := { priceParking := .number (1/250), discount := some (.dnum 50) }

/-- A space priced at 0.006 with no discount: the discounted price rounds up
to 0.01, above the raw base. -/
def sC4 : SpaceRec := { priceParking := .number (3/500) }

/-- A space priced at 100 with the literal discount 0.001 from the claim. -/
def sC100 : SpaceRec := { priceParking := .number 100, discount := some (.dnum (1/1000)) }

/-- A space priced at 100 with a plain 20 percent discount. -/
def sW3 : SpaceRec := { priceParking := .number 100, discount := some (.dnum 20) }

/-- Claim C3 as stated is false: for base 0.004 and recognised percentage 50
the code sets `hasDiscount` to true (it compares the rounded discounted price
with the raw base), although the discounted price and the base round to the
same two-decimal value, so the claimed iff-condition is false. -/
theorem c3_hasDiscount_counterexample :
    0 ≤ baseOf sC3 ∧
    (computeDiscountedPrice sC3).discountPercent = 50 ∧
    (computeDiscountedPrice sC3).hasDiscount = true ∧
    ¬(0 < (computeDiscountedPrice sC3).discountPercent ∧
      round2 ((computeDiscountedPrice sC3).discountedPrice) <
        round2 (baseOf sC3)) := by
  refine ⟨?_, ?_, ?_, ?_⟩ <;>
    norm_num [computeDiscountedPrice, sC3, baseOf, discountNumOf, jfOrElse,
      jfNumOr0, jfNum, round2]

/-- Claim C3, amended: `hasDiscount` is true iff the recognised clamped
percentage is positive and the discounted price (already rounded to two
decimals) is strictly below the raw, unrounded base price; the claimed
instance with base 100 and discount 0.001 does yield `hasDiscount = false`. -/
theorem c3_hasDiscount_amended (s : SpaceRec) (b d : ℚ)
    (hb : baseOf s = b) (hd : (computeDiscountedPrice s).discountPercent = d) :
    ((computeDiscountedPrice s).hasDiscount = true ↔
      0 < d ∧ (computeDiscountedPrice s).discountedPrice < b) ∧
    (computeDiscountedPrice sC100).hasDiscount = false := by
  subst hb hd
  constructor
  · simp [computeDiscountedPrice, Bool.and_eq_true, decide_eq_true_iff]
  · simp [computeDiscountedPrice, sC100, baseOf, discountNumOf, jfOrElse,
      jfNumOr0, jfNum, round2]
    norm_num

/-- Witness for the amended claim C3 at base 100, discount 20 percent. -/
theorem c3_hasDiscount_amended_witness :
    ((computeDiscountedPrice sW3).hasDiscount = true ↔
      0 < (20:ℚ) ∧ (computeDiscountedPrice sW3).discountedPrice < 100) ∧
    (computeDiscountedPrice sC100).hasDiscount = false :=
  c3_hasDiscount_amended sW3 100 20
    (by simp [sW3, baseOf, jfOrElse, jfNumOr0, jfNum])
    (by simp [computeDiscountedPrice, sW3, discountNumOf]; norm_num)

/-- Claim C4 as stated is false: for base 0.006 (well-formed input with the
recognised percentage 0, inside the claimed ranges) the computed discounted
price is 0.01, which is strictly greater than the base price. -/
theorem c4_discounted_price_counterexample :
    0 ≤ baseOf sC4 ∧
    (computeDiscountedPrice sC4).discountPercent = 0 ∧
    (computeDiscountedPrice sC4).discountedPrice = 1/100 ∧
    ¬((computeDiscountedPrice sC4).discountedPrice ≤ baseOf sC4) := by
  refine ⟨?_, ?_, ?_, ?_⟩ <;>
    norm_num [computeDiscountedPrice, sC4, baseOf, discountNumOf, jfOrElse,
      jfNumOr0, jfNum, round2]

/-- Claim C4, amended: for every recognised percentage `d` in `[0,100]` and
base `b ≥ 0` the discounted price equals `round2 (b * (1 - d/100))`, and it
is bounded by the rounded base price reported in the breakdown (the bound
against the raw base can fail when the base is not a multiple of 0.01). -/
theorem c4_discounted_price_amended (s : SpaceRec) (b d : ℚ)
    (hb : baseOf s = b) (hd : (computeDiscountedPrice s).discountPercent = d)
    (hb0 : 0 ≤ b) (hd0 : 0 ≤ d) (hd100 : d ≤ 100) :
    (computeDiscountedPrice s).discountedPrice = round2 (b * (1 - d / 100)) ∧
    (computeDiscountedPrice s).discountedPrice ≤
      (computeDiscountedPrice s).basePrice := by
  subst hb hd
  refine ⟨rfl, ?_⟩
  have hle : baseOf s * (1 - (computeDiscountedPrice s).discountPercent / 100) ≤
      baseOf s := by nlinarith
  simpa [computeDiscountedPrice] using round2_mono hle

/-- Witness for the amended claim C4 at base 100, discount 20 percent. -/
theorem c4_discounted_price_amended_witness :
    (computeDiscountedPrice sW3).discountedPrice = round2 (100 * (1 - 20 / 100)) ∧
    (computeDiscountedPrice sW3).discountedPrice ≤
      (computeDiscountedPrice sW3).basePrice :=
  c4_discounted_price_amended sW3 100 20
    (by simp [sW3, baseOf, jfOrElse, jfNumOr0, jfNum])
    (by simp [computeDiscountedPrice, sW3, discountNumOf]; norm_num)
    (by norm_num) (by norm_num) (by norm_num)

/-- The user record passed to the component as a prop (its declared shape,
plus the `phoneVerified` field an arbitrary caller may attach: the gate never
reads it). -/
structure PropUser where
  id : Option String := none
  _id : Option String := none
  name : Option String := none
  isVerified : Option Bool := none
  phoneVerified : Option Bool := none
deriving DecidableEq, Repr

/-- The auth-context user record, as read by the gate. -/
structure AuthUser where
  phoneVerified : Option Bool := none
deriving DecidableEq, Repr

/-- JS truthiness of an optional boolean field (`undefined` is falsy). -/
def jsTruthyBool : Option Bool → Bool
  | some true => true
  | _ => false

/-- JS `a || b` on optional strings (the empty string is falsy). -/
def jsOrStr (a b : Option String) : Option String :=
  match a with
  | some s => if s = "" then b else some s
  | none => b

/-- `(authUser as any)?.phoneVerified`. -/
def authPhone : Option AuthUser → Option Bool
  | some a => a.phoneVerified
  | none => none

/-- The navigation state handed to the booking flow (lines 297-307). -/
structure HandoffState where
  spaceId : Option String
  userId : Option String
  startTime : Option String
  endTime : Option String
  totalAmount : Option ℚ
  perHour : ℚ
  durationHours : Option ℚ
deriving DecidableEq, Repr

/-- The externally visible actions `handleBookNow` can perform. -/
inductive Effect where
  | toastInfo (msg : String)
  | navigate (path : String) (state : Option HandoffState)
  | openPhoneModal
  | closePopup
deriving DecidableEq, Repr

def loginToastMsg : String := "Please log in to book the parking space."

def kycToastMsg : String :=
  "Your account is not verified. Please complete your KYC to book."

/-- Embedding of `handleBookNow` (ParkingPopup.tsx lines 275-309) as the list
of effects it performs, in order. -/
def handleBookNow (user : Option PropUser) (authUser : Option AuthUser)
    (sp : SpaceRec) (parse : String → Option ℤ)
    (startTime endTime : Option String) : List Effect :=
  match user with
  | none => [.toastInfo loginToastMsg, .navigate ("/login") none]
  | some u =>
    if jsTruthyBool u.isVerified = false then [.toastInfo kycToastMsg]
    else if authPhone authUser = some false then [.openPhoneModal]
    else
      let dh := computeDurationHours parse startTime endTime
      [.navigate ("/vehicle-details") (some
        { spaceId := sp._id
          userId := jsOrStr u._id u.id
          startTime := startTime
          endTime := endTime
          totalAmount := totalAmount sp dh
          perHour := perHourOf sp
          durationHours := dh }),
       .closePopup]

/-- Whether an effect is the booking handoff (a navigation to the booking
flow). -/
def isHandoff : Effect → Bool
  | .navigate p _ => p == "/vehicle-details"
  | _ => false

/-- Number of handoff events in an effect list. -/
def handoffCount (l : List Effect) : ℕ := (l.filter isHandoff).length

/-- Modelled from the spec: the phone-verification sub-flow
(`PhoneVerifyModal`, not under src/) is consumed only through its
success/cancel contract; its success signal means the phone has been
verified, so on the `onSuccess` re-entry the auth-context record's
`phoneVerified` flag is true. -/
def phoneVerifySuccess (authUser : Option AuthUser) : Option AuthUser :=
  authUser.map (fun a => { a with phoneVerified := some true })

/-- Claim C2: the booking gate checks its conditions strictly in the order
Unauthenticated, UnverifiedIdentity, PhoneUnverified, Eligible; no session
gives a login redirect and abort, an unverified identity gives a blocking
notice and abort, an explicitly false phone flag opens the phone-verification
sub-flow, and otherwise exactly one handoff event carrying the seven-field
payload is emitted and the view closes; no blocked state emits a handoff and
the blocked outcomes are pairwise distinguishable. -/
theorem c2_booking_gate_table (user : Option PropUser)
    (authUser : Option AuthUser) (sp : SpaceRec)
    (parse : String → Option ℤ) (st et : Option String) :
    (user = none →
      handleBookNow user authUser sp parse st et =
        [.toastInfo loginToastMsg, .navigate ("/login") none] ∧
      handoffCount (handleBookNow user authUser sp parse st et) = 0) ∧
    (∀ u, user = some u → jsTruthyBool u.isVerified = false →
      handleBookNow user authUser sp parse st et = [.toastInfo kycToastMsg] ∧
      handoffCount (handleBookNow user authUser sp parse st et) = 0) ∧
    (∀ u, user = some u → jsTruthyBool u.isVerified = true →
      authPhone authUser = some false →
      handleBookNow user authUser sp parse st et = [.openPhoneModal] ∧
      handoffCount (handleBookNow user authUser sp parse st et) = 0) ∧
    (∀ u, user = some u → jsTruthyBool u.isVerified = true →
      authPhone authUser ≠ some false →
      handleBookNow user authUser sp parse st et =
        [.navigate ("/vehicle-details") (some
          { spaceId := sp._id
            userId := jsOrStr u._id u.id
            startTime := st
            endTime := et
            totalAmount := totalAmount sp (computeDurationHours parse st et)
            perHour := perHourOf sp
            durationHours := computeDurationHours parse st et }),
         .closePopup] ∧
      handoffCount (handleBookNow user authUser sp parse st et) = 1) ∧
    (([Effect.toastInfo loginToastMsg, Effect.navigate ("/login") none] :
        List Effect) ≠ [Effect.toastInfo kycToastMsg] ∧
     ([Effect.toastInfo kycToastMsg] : List Effect) ≠ [Effect.openPhoneModal] ∧
     ([Effect.toastInfo loginToastMsg, Effect.navigate ("/login") none] :
        List Effect) ≠ [Effect.openPhoneModal]) := by
  refine ⟨?_, ?_, ?_, ?_, by decide⟩
  · rintro rfl
    simp [handleBookNow, handoffCount, isHandoff]
  · rintro u rfl hv
    simp [handleBookNow, hv, handoffCount, isHandoff]
  · rintro u rfl hv hp
    simp [handleBookNow, hv, hp, handoffCount, isHandoff]
  · rintro u rfl hv hp
    simp [handleBookNow, hv, hp, handoffCount, isHandoff]

/-- A verified prop user with an id. -/
def uW : PropUser := { id := some ("u1"), isVerified := some true }

/-- An auth-context record with no phone flag. -/
def aW : AuthUser := { phoneVerified := none }

/-- An auth-context record whose phone flag is explicitly false. -/
def aPhone : AuthUser := { phoneVerified := some false }

/-- A date parser that recognises no string (models two absent timestamps in
the witnesses). -/
def parseNone : String → Option ℤ := fun _ => none

/-- Witness for claim C2: the eligible case at a concrete input emits the
handoff with the computed payload and closes the view. -/
theorem c2_booking_gate_table_witness :
    handleBookNow (some uW) (some aW) sW3 parseNone none none =
      [.navigate ("/vehicle-details") (some
        { spaceId := sW3._id
          userId := jsOrStr uW._id uW.id
          startTime := none
          endTime := none
          totalAmount := totalAmount sW3 (computeDurationHours parseNone none none)
          perHour := perHourOf sW3
          durationHours := computeDurationHours parseNone none none }),
       .closePopup] ∧
    handoffCount (handleBookNow (some uW) (some aW) sW3 parseNone none none) = 1 :=
  (c2_booking_gate_table (some uW) (some aW) sW3 parseNone none none).2.2.2.1
    uW rfl rfl (by decide)

/-- Claim C10: the phone-verification step reads the auth-context record, not
the prop user record; two booking attempts that differ only in the prop
record's `phoneVerified` field produce identical effect lists. -/
theorem c10_prop_phone_noninterference (u1 u2 : PropUser)
    (authUser : Option AuthUser) (sp : SpaceRec)
    (parse : String → Option ℤ) (st et : Option String)
    (hid : u1.id = u2.id) (hiid : u1._id = u2._id) (hn : u1.name = u2.name)
    (hv : u1.isVerified = u2.isVerified) :
    handleBookNow (some u1) authUser sp parse st et =
      handleBookNow (some u2) authUser sp parse st et := by
  cases u1
  cases u2
  simp only at hid hiid hn hv
  subst hid hiid hn hv
  simp [handleBookNow]

/-- A prop user whose `phoneVerified` field is false. -/
def uP1 : PropUser :=
  { id := some ("u1"), isVerified := some true, phoneVerified := some false }

/-- The same prop user with `phoneVerified` true. -/
def uP2 : PropUser :=
  { id := some ("u1"), isVerified := some true, phoneVerified := some true }

/-- Witness for claim C10 at two concrete prop records differing only in
`phoneVerified`. -/
theorem c10_prop_phone_noninterference_witness :
    handleBookNow (some uP1) (some aW) sW3 parseNone none none =
      handleBookNow (some uP2) (some aW) sW3 parseNone none none :=
  c10_prop_phone_noninterference uP1 uP2 (some aW) sW3 parseNone none none
    rfl rfl rfl rfl

/-- Claim C8: after the phone-verification sub-flow succeeds the gate is
re-run from the top (spec-modelled success contract `phoneVerifySuccess`):
for a session with verified identity and an explicitly false auth phone flag
the first attempt only opens the sub-flow, the re-entry with the flag set
emits exactly one handoff, and a session dropped during the sub-flow is
caught again by the Unauthenticated check on re-entry. -/
theorem c8_phone_reentry (u : PropUser) (a : AuthUser) (sp : SpaceRec)
    (parse : String → Option ℤ) (st et : Option String)
    (hv : jsTruthyBool u.isVerified = true)
    (hp : a.phoneVerified = some false) :
    handleBookNow (some u) (some a) sp parse st et = [.openPhoneModal] ∧
    handoffCount (handleBookNow (some u) (some a) sp parse st et) = 0 ∧
    handoffCount
      (handleBookNow (some u) (phoneVerifySuccess (some a)) sp parse st et) = 1 ∧
    handleBookNow none (phoneVerifySuccess (some a)) sp parse st et =
      [.toastInfo loginToastMsg, .navigate ("/login") none] := by
  refine ⟨?_, ?_, ?_, ?_⟩ <;>
    simp [handleBookNow, hv, hp, phoneVerifySuccess, authPhone, handoffCount,
      isHandoff]

/-- Witness for claim C8 at a concrete verified user and a concrete
auth-context record with `phoneVerified = false`. -/
theorem c8_phone_reentry_witness :
    handleBookNow (some uW) (some aPhone) sW3 parseNone none none =
      [.openPhoneModal] ∧
    handoffCount (handleBookNow (some uW) (some aPhone) sW3 parseNone none none) = 0 ∧
    handoffCount
      (handleBookNow (some uW) (phoneVerifySuccess (some aPhone)) sW3 parseNone none none) = 1 ∧
    handleBookNow none (phoneVerifySuccess (some aPhone)) sW3 parseNone none none =
      [.toastInfo loginToastMsg, .navigate ("/login") none] :=
  c8_phone_reentry uW aPhone sW3 parseNone none none rfl rfl

/-- Claim C7: the duration is defined exactly when both timestamps are
present, non-empty, parse, and the end is strictly after the start; in that
case it equals the elapsed milliseconds over `1000 * 60`, divided by `60`
(minutes over sixty); when it is undefined the total amount is also `null`;
the function is total, so no exception is ever thrown. -/
theorem c7_duration_total (parse : String → Option ℤ) (st et : Option String)
    (sp : SpaceRec) :
    ((computeDurationHours parse st et).isSome = true ↔
      ∃ s e ts te, st = some s ∧ et = some e ∧ s ≠ "" ∧ e ≠ "" ∧
        parse s = some ts ∧ parse e = some te ∧ ts < te) ∧
    (∀ s e ts te, st = some s → et = some e → s ≠ "" → e ≠ "" →
      parse s = some ts → parse e = some te → ts < te →
      computeDurationHours parse st et =
        some ((((te - ts : ℤ) : ℚ) / (1000 * 60)) / 60)) ∧
    (computeDurationHours parse st et = none →
      totalAmount sp (computeDurationHours parse st et) = none) := by
  refine ⟨?_, ?_, ?_⟩
  · cases st with
    | none => simp [computeDurationHours]
    | some s =>
      cases et with
      | none => simp [computeDurationHours]
      | some e =>
        by_cases hs : s = "" ∨ e = ""
        · rcases hs with hs | hs <;> simp [computeDurationHours, hs]
        · push_neg at hs
          cases hps : parse s with
          | none => simp [computeDurationHours, hs.1, hs.2, hps]
          | some ts =>
            cases hpe : parse e with
            | none => simp [computeDurationHours, hs.1, hs.2, hps, hpe]
            | some te =>
              by_cases hlt : te ≤ ts
              · simp [computeDurationHours, hs.1, hs.2, hps, hpe, hlt]
              · simp [computeDurationHours, hs.1, hs.2, hps, hpe, hlt]
                omega
  · rintro s e ts te rfl rfl hs he hps hpe hlt
    simp [computeDurationHours, hs, he, hps, hpe, not_le.mpr hlt]
  · intro h
    rw [h]
    rfl

/-- A date parser recognising the two timestamps of the specification
example (epoch milliseconds, 2.5 hours apart). -/
def parseW : String → Option ℤ := fun s =>
  if s = "2024-01-01T10:00:00Z" then some 1704103200000
  else if s = "2024-01-01T12:30:00Z" then some 1704112200000
  else none

/-- Witness for claim C7: the specification example evaluates to 2.5 hours,
and an absent pair of timestamps gives a null duration and null total. -/
theorem c7_duration_total_witness :
    computeDurationHours parseW (some ("2024-01-01T10:00:00Z"))
        (some ("2024-01-01T12:30:00Z")) =
      some ((((1704112200000 - 1704103200000 : ℤ) : ℚ) / (1000 * 60)) / 60) ∧
    computeDurationHours parseW (some ("2024-01-01T10:00:00Z"))
        (some ("2024-01-01T12:30:00Z")) = some (5/2) ∧
    totalAmount sW3 (computeDurationHours parseW none none) = none :=
  ⟨(c7_duration_total parseW (some ("2024-01-01T10:00:00Z"))
      (some ("2024-01-01T12:30:00Z")) sW3).2.1
      _ _ 1704103200000 1704112200000 rfl rfl (by decide) (by decide)
      (by simp [parseW]) (by simp [parseW]) (by norm_num),
   by
    have h := (c7_duration_total parseW (some ("2024-01-01T10:00:00Z"))
      (some ("2024-01-01T12:30:00Z")) sW3).2.1
      _ _ 1704103200000 1704112200000 rfl rfl (by decide) (by decide)
      (by simp [parseW]) (by simp [parseW]) (by norm_num)
    rw [h]
    norm_num,
   (c7_duration_total parseW none none sW3).2.2 rfl⟩

/-- The raw price and discount fields of two spaces agree. -/
def samePriceFields (s1 s2 : SpaceRec) : Prop :=
  s1.priceParking = s2.priceParking ∧ s1.pricePerHour = s2.pricePerHour ∧
  s1.price = s2.price ∧ s1.discount = s2.discount ∧
  s1.discountPercent = s2.discountPercent

/-- A space priced at 100 with no override. -/
def sP9a : SpaceRec := { priceParking := .number 100 }

/-- The same raw price fields, but with a precomputed `__price` override. -/
def sP9b : SpaceRec :=
  { priceParking := .number 100
    __price := some { basePrice := 1, discountPercent := 2,
                      discountedPrice := 3, hasDiscount := false } }

/-- Claim C9 as stated is false: two spaces with identical raw price and
discount fields can display different breakdowns, because a `__price` field
attached to the entity overrides the computation (`priceMeta` line 227). -/
theorem c9_price_breakdown_counterexample :
    samePriceFields sP9a sP9b ∧ priceMeta sP9a ≠ priceMeta sP9b := by
  refine ⟨⟨rfl, rfl, rfl, rfl, rfl⟩, ?_⟩
  intro h
  have hb := congrArg PriceBreakdown.basePrice h
  norm_num [priceMeta, sP9a, sP9b, computeDiscountedPrice, baseOf,
    discountNumOf, jfOrElse, jfNumOr0, jfNum, round2] at hb

/-- Claim C9, amended: the breakdown is a pure function of the entity record;
when the entity carries no precomputed `__price` override it is derived
solely from the raw price and discount fields and equals
`computeDiscountedPrice`. -/
theorem c9_price_breakdown_amended (s1 s2 : SpaceRec)
    (h1 : s1.__price = none) (h2 : s2.__price = none)
    (hf : samePriceFields s1 s2) :
    priceMeta s1 = priceMeta s2 ∧ priceMeta s1 = computeDiscountedPrice s1 := by
  obtain ⟨e1, e2, e3, e4, e5⟩ := hf
  have hbase : baseOf s1 = baseOf s2 := by simp [baseOf, e1, e2, e3]
  have hdisc : discountNumOf s1 = discountNumOf s2 := by
    simp [discountNumOf, e4, e5]
  constructor
  · simp [priceMeta, h1, h2, computeDiscountedPrice, hbase, hdisc]
  · simp [priceMeta, h1]

/-- The raw fields of `sW3` with an unrelated rating attached. -/
def sW9 : SpaceRec :=
  { priceParking := .number 100, discount := some (.dnum 20),
    rating := .number 4 }

/-- Witness for the amended claim C9 at two concrete spaces without
overrides, equal on the raw price and discount fields. -/
theorem c9_price_breakdown_amended_witness :
    priceMeta sW3 = priceMeta sW9 ∧ priceMeta sW3 = computeDiscountedPrice sW3 :=
  c9_price_breakdown_amended sW3 sW9 rfl rfl ⟨rfl, rfl, rfl, rfl, rfl⟩

/-- The hard-coded placeholder image URL (lines 260-262). -/
def placeholderUrl : String :=
  "https://images.unsplash.com/photo-1560518883-ce09059eeffa?ixlib=rb-4.0.3&auto=format&fit=crop&w=400&q=80"

/-- JS truthiness of an optional string field. -/
def strTruthy : Option String → Bool
  | some s => decide (s ≠ "")
  | none => false

/-- `s.startsWith p`, stated over the character lists so that it evaluates
by kernel reduction. -/
def strStarts (s p : String) : Bool := decide (s.data.take p.data.length = p.data)

/-- `s.includes c` for a single character. -/
def strHasChar (s : String) (c : Char) : Bool := decide (c ∈ s.data)

/-- Embedding of `makeUrl` (lines 235-252). -/
def makeUrl (apiBase cloudName : String) : Photo → Option String
  | .pstr s =>
    if s = "" then none
    else if (strStarts s ("http://") || strStarts s ("https://")) = true then
      some s
    else if strStarts s ("/") = true then some (apiBase ++ s)
    else if cloudName ≠ "" ∧ strHasChar s ('/') = true then
      some ("https://res.cloudinary.com/" ++ cloudName ++ "/image/upload/" ++ s)
    else some (apiBase ++ "/uploads/" ++ s)
  | .pobj url path filename =>
    if strTruthy url = true then url
    else if strTruthy path = true ∧
        (strStarts (path.getD "") ("http://") ||
         strStarts (path.getD "") ("https://")) = true then path
    else if strTruthy path = true ∧ strStarts (path.getD "") ("/") = true then
      some (apiBase ++ path.getD "")
    else if strTruthy filename = true then
      some (apiBase ++ "/uploads/" ++ filename.getD "")
    else none
  | .falsy => none
  | .truthyOther => none

/-- JS truthiness of a raw photo value. -/
def photoTruthy : Photo → Bool
  | .pstr s => decide (s ≠ "")
  | .pobj _ _ _ => true
  | .falsy => false
  | .truthyOther => true

/-- JS `.filter Boolean` on a list of URL results: drops `null` and the
empty string. -/
def jsFilterBoolean (l : List (Option String)) : List String :=
  l.reduceOption.filter (fun s => decide (s ≠ ""))

/-- Embedding of the `images` computation (lines 254-262).  An empty array is
truthy in JS, so it reaches the single-value branch, where `makeUrl` views it
as an object with no `url` / `path` / `filename` fields. -/
def images (apiBase cloudName : String) : RawPhotos → List String
  | .arr l =>
    if 0 < l.length then jsFilterBoolean (l.map (makeUrl apiBase cloudName))
    else jsFilterBoolean [makeUrl apiBase cloudName (.pobj none none none)]
  | .val p =>
    if photoTruthy p = true then jsFilterBoolean [makeUrl apiBase cloudName p]
    else [placeholderUrl]

/-- Claim C6 is right about the intent but the code violates it: a truthy
photo input whose items all resolve to nothing yields an empty image list,
with no placeholder substituted after the drop step.  A single-item array
with an empty object, and the empty array itself, both produce `[]`; the
placeholder appears only when the raw input is falsy, and resolvable inputs
resolve as specified. -/
theorem c6_images_empty_eval :
    images ("https://x.test") ("") (.arr [.pobj none none none]) = [] ∧
    images ("https://x.test") ("") (.arr []) = [] ∧
    images ("https://x.test") ("") (.val (.pstr "abc.jpg")) =
      ["https://x.test/uploads/abc.jpg"] ∧
    images ("https://x.test") ("") (.val .falsy) = [placeholderUrl] := by
  refine ⟨?_, ?_, by decide, ?_⟩ <;>
    simp [images, makeUrl, photoTruthy, jsFilterBoolean, strTruthy,
      placeholderUrl]

/-- `Number (x ?? 0)` on a field value; `none` models `NaN`. -/
def jfNumDef0 (f : JField) : Option ℚ :=
  match f with
  | .absent => some 0
  | .number q => some q
  | .coerces q => some q
  | .nanLike => none

/-- The `stats` object of a ratings response. -/
structure StatsObj where
  avg : JField := .absent
  count : JField := .absent
deriving DecidableEq, Repr

/-- The `fromUser` field of a raw rating record. -/
inductive FromUser where
  /-- a bare identifier string -/
  | fstr (s : String)
  /-- an object with optional display-name fields -/
  | fobj (name fullName email : Option String) (_id : Option String)
  /-- absent, null, or any non-object non-string value -/
  | fnone
deriving DecidableEq, Repr

/-- A raw rating record from the server.  `createdAt` carries the epoch
milliseconds the record's timestamp parses to (`none` when missing). -/
structure RawRecord where
  _id : Option String := none
  score : JField := .absent
  comment : Option String := none
  fromUser : FromUser := .fnone
  createdAt : Option ℤ := none
deriving DecidableEq, Repr

/-- A successful response body, after the shape sniffing of lines 127-131:
a bare array, or an object whose `ratings` field may or may not be an array
and whose `stats` field may be present.  Any other shape is `obj none none`. -/
inductive RespData where
  | arr (l : List RawRecord)
  | obj (ratings : Option (List RawRecord)) (stats : Option StatsObj)
deriving DecidableEq, Repr

/-- The normalised `ratingsArray` (lines 128-131). -/
def ratingsArrayOf : RespData → List RawRecord
  | .arr l => l
  | .obj r _ => r.getD []

/-- `data?.stats` (an array has no `stats` field). -/
def statsOf : RespData → Option StatsObj
  | .arr _ => none
  | .obj _ st => st

/-- `typeof x === 'number'`. -/
def isNumberField : JField → Bool
  | .number _ => true
  | _ => false

/-- The stats object the code actually uses: present and carrying a numeric
`avg` or a numeric `count` (the condition of line 134). -/
def statsPick (d : RespData) : Option StatsObj :=
  match statsOf d with
  | some st =>
    if (isNumberField st.avg || isNumberField st.count) = true then some st
    else none
  | none => none

/-- The reduce of line 138: sum of `Number (r.score) || 0`. -/
def sumScores (l : List RawRecord) : ℚ :=
  l.foldl (fun s r => s + jfNumOr0 r.score) 0

/-- The normalised author of a review (lines 152-157). -/
inductive NFrom where
  | nstr (s : String)
  | nobj (name : String) (_id : Option String)
  | nnull
deriving DecidableEq, Repr

/-- A normalised review as stored in component state. -/
structure NReview where
  _id : Option String
  score : ℚ
  comment : String
  fromUser : NFrom
  createdAt : Option ℤ
deriving DecidableEq, Repr

/-- Normalisation of one record (lines 148-159). -/
def normalizeRecord (r : RawRecord) : NReview :=
  { _id := r._id
    score := jfNumOr0 r.score
    comment := (r.comment).getD ""
    fromUser :=
      match r.fromUser with
      | .fstr s => .nstr s
      | .fobj name fullName email i =>
        .nobj ((jsOrStr (jsOrStr name (jsOrStr fullName email))
          (some ("Anonymous"))).getD "") i
      | .fnone => .nnull
    createdAt := r.createdAt }

/-- Sort key of the comparator of lines 160-164: a missing timestamp is
epoch 0. -/
def reviewKey (r : NReview) : ℤ := (r.createdAt).getD 0

/-- Newest-first sort of the normalised reviews. -/
def sortReviews (l : List NReview) : List NReview :=
  l.mergeSort (fun a b => decide (reviewKey b ≤ reviewKey a))

/-- The visible rating state of the component: average, count, review list.
`none` in the numeric fields models `NaN`. -/
structure VisState where
  ratingAvg : Option ℚ
  ratingCount : Option ℚ
  reviews : List NReview
deriving DecidableEq, Repr

/-- The reset applied when the selection changes (lines 93-99, also the
no-id early return of lines 103-108 and the failure fallback of lines
175-177): cached rating, zero count, empty list. -/
def resetVis (sp : SpaceRec) : VisState :=
  { ratingAvg := jfNumDef0 sp.rating
    ratingCount := some 0
    reviews := [] }

/-- The state written by a successful, non-aborted fetch (lines 125-171).
The inner `spaceId === String(space._id)` guard of line 166 is always true
inside the effect closure, and the abort guards are modelled at the event
level in `stepAgg`. -/
def applySuccess (sp : SpaceRec) (d : RespData) : VisState :=
  let ratingsArray := ratingsArrayOf d
  let avgCount : Option ℚ × Option ℚ :=
    match statsPick d with
    | some st => (jfNumDef0 st.avg, jfNumDef0 st.count)
    | none =>
      if 0 < ratingsArray.length then
        (some (sumScores ratingsArray / max 1 (ratingsArray.length : ℚ)),
         some ((ratingsArray.length : ℚ)))
      else (jfNumDef0 sp.rating, some 0)
  { ratingAvg := avgCount.1
    ratingCount := avgCount.2
    reviews :=
      if 0 < ratingsArray.length then
        sortReviews (ratingsArray.map normalizeRecord)
      else [] }

/-- Claim C5 exactly as stated, over the response and the produced state: a
stats object is preferred whenever present; without one, a non-empty
collection yields the mean and the length; otherwise the cached rating with
count 0. -/
def c5ClaimSpec (sp : SpaceRec) (d : RespData) (v : VisState) : Prop :=
  match statsOf d with
  | some st => v.ratingAvg = jfNumDef0 st.avg ∧ v.ratingCount = jfNumDef0 st.count
  | none =>
    if 0 < (ratingsArrayOf d).length then
      v.ratingAvg =
        some (sumScores (ratingsArrayOf d) / ((ratingsArrayOf d).length : ℚ)) ∧
      v.ratingCount = some (((ratingsArrayOf d).length : ℚ))
    else v.ratingAvg = jfNumDef0 sp.rating ∧ v.ratingCount = some 0

/-- One rating record with score 4. -/
def recX : RawRecord := { score := .number 4 }

/-- A stats object whose `avg` is a numeric string, not a number. -/
def stX : StatsObj := { avg := .coerces 7 }

/-- A response with one rating and a present but non-numeric stats object. -/
def respX : RespData := .obj (some [recX]) (some stX)

/-- A space with a cached rating of 3. -/
def spX : SpaceRec := { _id := some ("s1"), rating := .number 3 }

/-- Claim C5 as stated is false: for a present stats object with no numeric
`avg` or `count` field the code ignores it and computes the mean (average 4,
count 1 here), while the claim requires the stats values to be preferred. -/
theorem c5_normalization_counterexample :
    (applySuccess spX respX).ratingAvg = some 4 ∧
    (applySuccess spX respX).ratingCount = some 1 ∧
    ¬ c5ClaimSpec spX respX (applySuccess spX respX) := by
  refine ⟨?_, ?_, ?_⟩
  · simp [applySuccess, statsPick, statsOf, ratingsArrayOf, respX, stX, recX,
      isNumberField, jfNumDef0, sumScores, jfNumOr0, jfNum]
  · simp [applySuccess, statsPick, statsOf, ratingsArrayOf, respX, stX, recX,
      isNumberField, jfNumDef0]
  · simp [c5ClaimSpec, statsOf, respX, stX, jfNumDef0, applySuccess, statsPick,
      ratingsArrayOf, isNumberField, sumScores, jfNumOr0, jfNum, recX]

theorem max_one_natCast_eq {n : ℕ} (hn : 0 < n) : max 1 ((n : ℚ)) = n := by
  have h1 : (1:ℚ) ≤ (n : ℚ) := by exact_mod_cast hn
  exact max_eq_right h1

/-- Claim C5, amended: a stats object is preferred only when it is present
with a numeric `avg` or a numeric `count` field (`statsPick`); a present
stats object lacking both is ignored.  With no usable stats, a non-empty
collection (a bare array, or the `ratings` array of an object; any other
shape is empty) yields the mean of the coerced scores and the collection
length, and an empty collection falls back to the entity's cached rating
with count 0. -/
theorem c5_normalization_amended (sp : SpaceRec) (d : RespData) :
    (∀ st, statsPick d = some st →
      (applySuccess sp d).ratingAvg = jfNumDef0 st.avg ∧
      (applySuccess sp d).ratingCount = jfNumDef0 st.count) ∧
    (statsPick d = none → 0 < (ratingsArrayOf d).length →
      (applySuccess sp d).ratingAvg =
        some (sumScores (ratingsArrayOf d) / ((ratingsArrayOf d).length : ℚ)) ∧
      (applySuccess sp d).ratingCount = some (((ratingsArrayOf d).length : ℚ))) ∧
    (statsPick d = none → (ratingsArrayOf d).length = 0 →
      (applySuccess sp d).ratingAvg = jfNumDef0 sp.rating ∧
      (applySuccess sp d).ratingCount = some 0) ∧
    (∀ l, applySuccess sp (.arr l) = applySuccess sp (.obj (some l) none)) := by
  refine ⟨?_, ?_, ?_, ?_⟩
  · intro st hst
    simp [applySuccess, hst]
  · intro hst hlen
    simp [applySuccess, hst, hlen, max_one_natCast_eq hlen]
  · intro hst hlen
    simp [applySuccess, hst, hlen]
  · intro l
    simp [applySuccess, statsPick, statsOf, ratingsArrayOf]

/-- A usable stats object: numeric average 5 and numeric count 2. -/
def stW5 : StatsObj := { avg := .number 5, count := .number 2 }

/-- A response carrying one rating and the usable stats object. -/
def dW5 : RespData := .obj (some [recX]) (some stW5)

/-- Witness for the amended claim C5: the usable stats object is preferred
over the single-record mean. -/
theorem c5_normalization_amended_witness :
    (applySuccess spX dW5).ratingAvg = jfNumDef0 stW5.avg ∧
    (applySuccess spX dW5).ratingCount = jfNumDef0 stW5.count :=
  (c5_normalization_amended spX dW5).1 stW5 rfl

/-- The aggregator state: the visible rating state together with the
generation of the live effect run.  Each run of the fetch effect creates a
fresh `AbortController`; the cleanup of the previous run aborts the previous
controller before the next run (and on unmount).  A controller of generation
`g` is therefore aborted exactly when `g` is no longer the current
generation. -/
structure AggState where
  vis : VisState
  gen : ℕ
deriving DecidableEq, Repr

/-- The events of the fetch lifecycle: a selection change (cleanup aborts the
old controller, the reset effect of lines 93-99 runs, a new fetch is issued),
component teardown (cleanup only), and the resolution or rejection of the
fetch issued at generation `g` for space `sp`. -/
inductive AggEvent where
  | select (sp : SpaceRec)
  | teardown
  | success (g : ℕ) (sp : SpaceRec) (d : RespData)
  | failure (g : ℕ) (sp : SpaceRec)
deriving DecidableEq, Repr

/-- One lifecycle step.  A completion whose generation is not current found
`controller.signal.aborted` true and returns without touching state (line 123
on the success path, line 173 in the catch block); an unaborted rejection
applies the fallback reset of lines 175-177. -/
def stepAgg (s : AggState) : AggEvent → AggState
  | .select sp => { vis := resetVis sp, gen := s.gen + 1 }
  | .teardown => { s with gen := s.gen + 1 }
  | .success g sp d => if g = s.gen then { s with vis := applySuccess sp d } else s
  | .failure g sp => if g = s.gen then { s with vis := resetVis sp } else s

/-- Processing a sequence of lifecycle events. -/
def runAgg (s : AggState) : List AggEvent → AggState := List.foldl stepAgg s

theorem stepAgg_gen_le (s : AggState) (e : AggEvent) : s.gen ≤ (stepAgg s e).gen := by
  cases e with
  | select sp => exact Nat.le_succ s.gen
  | teardown => exact Nat.le_succ s.gen
  | success g sp d => by_cases h : g = s.gen <;> simp [stepAgg, h]
  | failure g sp => by_cases h : g = s.gen <;> simp [stepAgg, h]

theorem runAgg_gen_le (s : AggState) (tr : List AggEvent) :
    s.gen ≤ (runAgg s tr).gen := by
  induction tr generalizing s with
  | nil => exact le_refl _
  | cons e tr ih =>
    exact le_trans (stepAgg_gen_le s e) (ih (stepAgg s e))

/-- Claim C1: once a newer selection (or teardown) has bumped the generation
past `g`, the fetch issued at generation `g` is aborted; whenever it
completes — after any further sequence of lifecycle events, successfully or
with an error — it performs no state update at all: the visible rating
average, rating count and review list are exactly what they would have been
without the stale completion. -/
theorem c1_stale_completion_no_update (s : AggState) (tr : List AggEvent)
    (g : ℕ) (sp : SpaceRec) (d : RespData) (hg : g < s.gen) :
    runAgg s (tr ++ [.success g sp d]) = runAgg s tr ∧
    runAgg s (tr ++ [.failure g sp]) = runAgg s tr := by
  have hgen : s.gen ≤ (runAgg s tr).gen := runAgg_gen_le s tr
  have hne : ¬ g = (runAgg s tr).gen := by omega
  have h1 : runAgg s (tr ++ [.success g sp d]) =
      stepAgg (runAgg s tr) (.success g sp d) := by
    simp [runAgg, List.foldl_append]
  have h2 : runAgg s (tr ++ [.failure g sp]) =
      stepAgg (runAgg s tr) (.failure g sp) := by
    simp [runAgg, List.foldl_append]
  constructor
  · rw [h1]
    simp [stepAgg, hne]
  · rw [h2]
    simp [stepAgg, hne]

/-- A selected space and a previously selected one. -/
def spB : SpaceRec := { _id := some ("b"), rating := .number 5 }

/-- The aggregator state right after selecting `spB` as the second space:
its fetch runs at generation 1, and the generation-0 fetch is aborted. -/
def s1W : AggState := { vis := resetVis spB, gen := 1 }

/-- Witness for claim C1: the stale generation-0 completion (result or
error) leaves the state after selecting `spB` untouched. -/
theorem c1_stale_completion_no_update_witness :
    runAgg s1W ([] ++ [.success 0 spX respX]) = runAgg s1W [] ∧
    runAgg s1W ([] ++ [.failure 0 spX]) = runAgg s1W [] :=
  c1_stale_completion_no_update s1W [] 0 spX respX (by decide)
